import Mathlib

/-!
Shallow embedding of `rendering/_core.py`, a single-file Python/PyOpenCL
framework: host functions annotated with type descriptors are turned into
OpenCL source text, compiled lazily, and dispatched; a memory manager offers
buffers/images with scoped host mapping; a small vector/matrix math library
operates on numpy structured dtypes.

Modelling conventions:
- numpy float32 arithmetic is embedded exactly over `ℚ` (exact-arithmetic
  embedding); `np.sqrt` is an opaque external function modelled as an explicit
  function parameter, constrained in theorems to be an exact square root at the
  inputs of interest.
- Python `assert` failures and `ValueError`s raised by the underlying tools
  are classified per the spec's error taxonomy as `Err.invalidInput`; the
  explicit "can not call from host" raise is `Err.unsupportedOperation`.
- numpy structured scalars of the registered dtypes are the inductive `PyVal`;
  the float3 dtype carries its fourth storage lane (`wpad`) explicitly.
- the process-wide globals (`__code__`, the per-dispatcher `program` cache,
  the queue's enqueued work) are explicit state (`ProcState`) threaded through
  the declaration and dispatch operations.
-/

deriving instance DecidableEq for Except

/-- Error taxonomy from the spec, covering the exceptions the code raises. -/
inductive Err where
  | invalidInput
  | unsupportedOperation
deriving DecidableEq, Repr

/-- The registered numpy dtypes relevant to the embedded operations
(`float2`, `float3`, `float4`, `float16` alias `float4x4`, scalars). -/
inductive NpDtype where
  | float32
  | int32
  | int8
  | uint32
  | uint8
  | vfloat2
  | vfloat3
  | vfloat4
  | mfloat4x4
  | rgba
deriving DecidableEq, Repr

/-- Device-side type spelling of a registered dtype (`cltools.dtype_to_ctype`). -/
def dtypeToCtype : NpDtype → String
  | NpDtype.float32 => "float"
  | NpDtype.int32 => "int"
  | NpDtype.int8 => "char"
  | NpDtype.uint32 => "uint"
  | NpDtype.uint8 => "uchar"
  | NpDtype.vfloat2 => "float2"
  | NpDtype.vfloat3 => "float3"
  | NpDtype.vfloat4 => "float4"
  | NpDtype.mfloat4x4 => "float16"
  | NpDtype.rgba => "uchar4"

/-- A Python value usable as a parameter/return annotation:
`None`, a string (object types, used verbatim), a registered dtype,
or a list (pointer marker wrapping one element). -/
inductive Ann where
  | pynone
  | pystr (s : String)
  | pydtype (d : NpDtype)
  | pylist (l : List Ann)

/-- Embedding of `_get_annotation_as_cltype(annotation, assert_no_pointer)`:
`None` maps to `"void"`; a one-element list marks a pointer and is unwrapped
(other lengths fail the `len(annotation) == 1` assert); a string annotation is
returned verbatim BEFORE the no-pointer assert; otherwise the no-pointer assert
fires for pointers when requested, and the dtype is rendered (as a
`__global T*` global pointer when marked), with non-dtype leftovers failing
inside `dtype_to_ctype`. -/
def getAnnotationAsCltype (ann : Ann) (assertNoPointer : Bool) : Except Err String :=
  match ann with
  | Ann.pynone => Except.ok "void"
  | Ann.pystr s => Except.ok s
  | Ann.pydtype d => Except.ok (dtypeToCtype d)
  | Ann.pylist l =>
    match l with
    | [inner] =>
      match inner with
      | Ann.pystr s => Except.ok s
      | _ =>
        if assertNoPointer then Except.error Err.invalidInput
        else
          match inner with
          | Ann.pydtype d => Except.ok ("__global " ++ dtypeToCtype d ++ "*")
          | _ => Except.error Err.invalidInput
    | _ => Except.error Err.invalidInput

/-- A host function as seen by `_get_signature`: name, annotated parameters in
declaration order, return annotation (`Option.none` models an absent
annotation, i.e. `inspect.Signature.empty`), and the doc string used as the
generated function body. All parameters carry annotations, which is what
`_get_signature` asserts. -/
structure PyFunc where
  name : String
  params : List (String × Ann)
  retAnn : Option Ann
  doc : String

/-- Return-annotation rendering: an absent annotation reaches
`dtype_to_ctype(inspect.Signature.empty)` and fails; otherwise it is rendered
like any annotation. -/
def getReturnAnnotationAsCltype (r : Option Ann) (assertNoPointer : Bool) : Except Err String :=
  match r with
  | Option.none => Except.error Err.invalidInput
  | some a => getAnnotationAsCltype a assertNoPointer

/-- Render `"<type> <name>"` for each parameter in order, stopping at the
first failure (the generator expression inside the f-string join). -/
def renderParams : List (String × Ann) → Bool → Except Err (List String)
  | [], _ => Except.ok []
  | p :: ps, b =>
    match getAnnotationAsCltype p.2 b with
    | Except.error e => Except.error e
    | Except.ok c =>
      match renderParams ps b with
      | Except.error e => Except.error e
      | Except.ok rest => Except.ok ((c ++ " " ++ p.1) :: rest)

/-- A row of the 4x4 matrix storage (four consecutive lanes). -/
structure Vec4Q where
  x : ℚ
  y : ℚ
  z : ℚ
  w : ℚ
deriving DecidableEq, Repr

/-- The 16-lane `float4x4` storage, as four rows in lane order
(row-major, matching `to_array`'s reshape to (4, 4)). -/
structure Mat4Q where
  r0 : Vec4Q
  r1 : Vec4Q
  r2 : Vec4Q
  r3 : Vec4Q
deriving DecidableEq, Repr

/-- A numpy structured scalar of one of the registered float vector/matrix
dtypes. The `float3` dtype stores four lanes; `wpad` is the fourth. -/
inductive PyVal where
  | vf2 (x y : ℚ)
  | vf3 (x y z wpad : ℚ)
  | vf4 (x y z w : ℚ)
  | m44 (m : Mat4Q)
deriving DecidableEq, Repr

/-- The dtype of a `PyVal` (numpy's `v.dtype`). -/
def dtypeOf : PyVal → NpDtype
  | PyVal.vf2 _ _ => NpDtype.vfloat2
  | PyVal.vf3 _ _ _ _ => NpDtype.vfloat3
  | PyVal.vf4 _ _ _ _ => NpDtype.vfloat4
  | PyVal.m44 _ => NpDtype.mfloat4x4

/-- `make_float2(x, y)` on explicit components. -/
def makeFloat2 (x y : ℚ) : PyVal := PyVal.vf2 x y

/-- `make_float3(x, y, z)`: always pads a fourth storage lane with `0.0`
(`np.array(tuple([*args, 0.0]), dtype=float3)`). -/
def makeFloat3 (x y z : ℚ) : PyVal := PyVal.vf3 x y z 0

/-- `make_float4(x, y, z, w)` on explicit components. -/
def makeFloat4 (x y z w : ℚ) : PyVal := PyVal.vf4 x y z w

/-- `make_float4x4` on its 16 explicit components, in lane (row-major) order. -/
def makeFloat4x4 (c00 c01 c02 c03 c10 c11 c12 c13 c20 c21 c22 c23 c30 c31 c32 c33 : ℚ) : PyVal :=
  PyVal.m44 (Mat4Q.mk (Vec4Q.mk c00 c01 c02 c03) (Vec4Q.mk c10 c11 c12 c13)
    (Vec4Q.mk c20 c21 c22 c23) (Vec4Q.mk c30 c31 c32 c33))

/-- Plain numeric array produced by `to_array`: a flat component vector, or a
4x4 nested array for the matrix dtype. -/
inductive PlainArray where
  | vec (l : List ℚ)
  | mat (rows : List (List ℚ))
deriving DecidableEq, Repr

/-- `to_array(v)` on a structured scalar: reinterpret as float32 components
with an explicit trailing axis; the `float3` case reshapes the 4-wide storage
and truncates `[..., 0:3]`; the matrix case reshapes to (4, 4). -/
def toArray : PyVal → PlainArray
  | PyVal.vf2 x y => PlainArray.vec [x, y]
  | PyVal.vf3 x y z _ => PlainArray.vec [x, y, z]
  | PyVal.vf4 x y z w => PlainArray.vec [x, y, z, w]
  | PyVal.m44 m => PlainArray.mat
      [[m.r0.x, m.r0.y, m.r0.z, m.r0.w], [m.r1.x, m.r1.y, m.r1.z, m.r1.w],
       [m.r2.x, m.r2.y, m.r2.z, m.r2.w], [m.r3.x, m.r3.y, m.r3.z, m.r3.w]]

/-- `dot(v1, v2)`: asserts equal dtypes (and shapes — scalar instances here,
both shape `()`), then sums the named component products; the `float3` case
ignores the fourth storage lane; non-vector dtypes raise. -/
def dot (v1 v2 : PyVal) : Except Err ℚ :=
  if dtypeOf v1 ≠ dtypeOf v2 then Except.error Err.invalidInput
  else
    match v1, v2 with
    | PyVal.vf2 x1 y1, PyVal.vf2 x2 y2 => Except.ok (x1 * x2 + y1 * y2)
    | PyVal.vf3 x1 y1 z1 _, PyVal.vf3 x2 y2 z2 _ => Except.ok (x1 * x2 + y1 * y2 + z1 * z2)
    | PyVal.vf4 x1 y1 z1 w1, PyVal.vf4 x2 y2 z2 w2 =>
        Except.ok (x1 * x2 + y1 * y2 + z1 * z2 + w1 * w2)
    | _, _ => Except.error Err.invalidInput

/-- Embedding of `normalize(v)`, with `np.sqrt` passed explicitly as `s`.
Mirrors the source statement by statement: `l = np.sqrt(dot(v, v))`, then
`v = to_array(v) / l` (one division), then the `float3` branch rebuilds via
`make_float3(v)` while every other branch returns `(v / l).view(v_dtype)` —
dividing by `l` a second time. -/
def normalizeWith (s : ℚ → ℚ) (v : PyVal) : Except Err PyVal :=
  match dot v v with
  | Except.error e => Except.error e
  | Except.ok d =>
    let l := s d
    match v with
    | PyVal.vf3 x y z _ => Except.ok (PyVal.vf3 (x / l) (y / l) (z / l) 0)
    | PyVal.vf2 x y => Except.ok (PyVal.vf2 (x / l / l) (y / l / l))
    | PyVal.vf4 x y z w =>
        Except.ok (PyVal.vf4 (x / l / l) (y / l / l) (z / l / l) (w / l / l))
    | PyVal.m44 _ => Except.error Err.invalidInput

/-- Row vector times 4x4 matrix, the numpy `@` product on a (4,) by (4, 4)
pair: component `j` of the result is `Σ i, v i * m i j`. -/
def rowTimesMat (x y z w : ℚ) (m : Mat4Q) : Vec4Q :=
  Vec4Q.mk
    (x * m.r0.x + y * m.r1.x + z * m.r2.x + w * m.r3.x)
    (x * m.r0.y + y * m.r1.y + z * m.r2.y + w * m.r3.y)
    (x * m.r0.z + y * m.r1.z + z * m.r2.z + w * m.r3.z)
    (x * m.r0.w + y * m.r1.w + z * m.r2.w + w * m.r3.w)

/-- 4x4 by 4x4 matrix product (numpy `@` on (4, 4) arrays), row by row. -/
def matTimesMat (a b : Mat4Q) : Mat4Q :=
  Mat4Q.mk (rowTimesMat a.r0.x a.r0.y a.r0.z a.r0.w b)
    (rowTimesMat a.r1.x a.r1.y a.r1.z a.r1.w b)
    (rowTimesMat a.r2.x a.r2.y a.r2.z a.r2.w b)
    (rowTimesMat a.r3.x a.r3.y a.r3.z a.r3.w b)

/-- Embedding of `matmul(a, b)`: asserts `a` is a `float4` or `float4x4` and
`b` a `float4x4`, converts both through `to_array`, applies numpy `@`, and
rebuilds a value of the result dtype (`make_float4` / `make_float4x4`). -/
def matmul (a b : PyVal) : Except Err PyVal :=
  if ¬(dtypeOf a = NpDtype.vfloat4 ∨ dtypeOf a = NpDtype.mfloat4x4) then
    Except.error Err.invalidInput
  else if ¬(dtypeOf b = NpDtype.mfloat4x4) then Except.error Err.invalidInput
  else
    match a, b with
    | PyVal.vf4 x y z w, PyVal.m44 m =>
        let c := rowTimesMat x y z w m
        Except.ok (makeFloat4 c.x c.y c.z c.w)
    | PyVal.m44 ma, PyVal.m44 mb => Except.ok (PyVal.m44 (matTimesMat ma mb))
    | _, _ => Except.error Err.invalidInput

/-- `translate(x, y, z)` (source name `translate`): row-vector-convention
translation matrix with the translation in the last row. -/
def translateM (x y z : ℚ) : PyVal :=
  makeFloat4x4 1 0 0 0 0 1 0 0 0 0 1 0 x y z 1

/-- The generated auxiliary-function text appended to `__code__` by
`kernel_function` (the f-string: newline, return type, name, parameter list,
braced doc-string body). -/
def kernelFunctionText (f : PyFunc) (code : String) : Except Err String :=
  match getReturnAnnotationAsCltype f.retAnn true with
  | Except.error e => Except.error e
  | Except.ok ret =>
    match renderParams f.params true with
    | Except.error e => Except.error e
    | Except.ok ps =>
      Except.ok (code ++ "\n" ++ ret ++ " " ++ f.name ++ "(" ++
        String.intercalate ", " ps ++ ") \x7b\n" ++ f.doc ++ "\n\x7d\n")

/-- The `wrapper` closure returned by `kernel_function`: it unconditionally
raises ("Can not call to this function from host.") whatever the arguments. -/
def hostCallAux (_args : List PyVal) : Except Err PyVal :=
  Except.error Err.unsupportedOperation

/-- Embedding of `kernel_function(f)`: render the declaration into the shared
source buffer with pointer parameters disallowed, and return the new buffer
together with the host-side `wrapper`. -/
def kernelFunction (f : PyFunc) (code : String) :
    Except Err (String × (List PyVal → Except Err PyVal)) :=
  match kernelFunctionText f code with
  | Except.error e => Except.error e
  | Except.ok c => Except.ok (c, hostCallAux)

/-- A compiled `cl.Program`: a snapshot of the source buffer passed to
`cl.Program(__ctx__, __code__).build()`. -/
structure Program where
  source : String
deriving DecidableEq, Repr

/-- The per-`kernel_main` dispatcher state: the kernel entry-point name it is
bound to and the `nonlocal program` cache shared by all of its calls. -/
structure DispState where
  kname : String
  progCache : Option Program
deriving DecidableEq, Repr

/-- Process-wide state: the shared source buffer `__code__`, the dispatchers
created by `kernel_main` in creation order, a count of `cl.Program(...).build()`
calls, and the enqueue log of the single command queue as
(kernel name, global size) pairs. -/
structure ProcState where
  code : String
  dispatchers : List DispState
  compiles : ℕ
  enqueues : List (String × ℤ)
deriving DecidableEq, Repr

/-- The kernel-entry text appended to `__code__` by `kernel_main` (the
f-string: newline, `__kernel void`, name, parameters, the injected
`int thread_id = get_global_id(0);` line, the doc-string body, and the
trailing indentation of the triple-quoted literal). -/
def kernelMainText (name : String) (ps : List String) (doc : String) : String :=
  "\n__kernel void " ++ name ++ "(" ++ String.intercalate ", " ps ++
    ") \x7b\nint thread_id = get_global_id(0);\n" ++ doc ++ "\n\x7d\n    "

/-- Embedding of `kernel_main(f)`: asserts the function has no return
annotation at all (`return_annotation == inspect.Signature.empty`), renders
the parameters (pointers allowed), appends the kernel text, and creates a new
dispatcher whose `program` cache starts out empty. -/
def kernelMain (f : PyFunc) (s : ProcState) : Except Err ProcState :=
  match f.retAnn with
  | some _ => Except.error Err.invalidInput
  | Option.none =>
    match renderParams f.params false with
    | Except.error e => Except.error e
    | Except.ok ps =>
      Except.ok { s with
        code := s.code ++ kernelMainText f.name ps f.doc,
        dispatchers := s.dispatchers ++ [DispState.mk f.name Option.none] }

/-- The index given to `Dispatcher.__getitem__`: a single integer, or a
multi-dimensional shape (list/tuple). -/
inductive ThreadShape where
  | single (n : ℤ)
  | multi (dims : List ℤ)
deriving DecidableEq, Repr

/-- Thread-count resolution in `__getitem__`: a list or tuple is collapsed
with `math.prod`; an integer is used as is. -/
def resolveNumThreads : ThreadShape → ℤ
  | ThreadShape.single n => n
  | ThreadShape.multi dims => dims.prod

/-- Store a freshly built program into dispatcher `i`'s `nonlocal program`
cache. -/
def setCache : List DispState → ℕ → Program → List DispState
  | [], _, _ => []
  | d :: ds, 0, p => { d with progCache := some p } :: ds
  | d :: ds, Nat.succ n, p => d :: setCache ds n p

/-- Embedding of one `dispatch_call` through dispatcher `i`: resolve the
thread count, build `cl.Program(__ctx__, __code__)` only if this dispatcher's
cache is empty (caching the result), and enqueue the kernel over the resolved
1-D global size on the shared queue. An out-of-range index is a no-op. -/
def invoke (s : ProcState) (i : ℕ) (t : ThreadShape) : ProcState :=
  match s.dispatchers[i]? with
  | Option.none => s
  | some d =>
    let numThreads := resolveNumThreads t
    match d.progCache with
    | some _ => { s with enqueues := s.enqueues ++ [(d.kname, numThreads)] }
    | Option.none =>
      { s with
        compiles := s.compiles + 1,
        dispatchers := setCache s.dispatchers i (Program.mk s.code),
        enqueues := s.enqueues ++ [(d.kname, numThreads)] }

/-- The prelude seeding `__code__` at module load: the `float4x4` alias and
the `transpose`/`mul` helpers. -/
def preludeCode : String :=
  "\n#define float4x4 float16\n\nfloat4x4 transpose( float4x4 m )\n\x7b\n" ++
  "    float4x4 t;\n    // transpose\n    t.even = m.lo;\n    t.odd = m.hi;\n" ++
  "    m.even = t.lo;\n    m.odd = t.hi;\n\n    return m;\n\x7d\n\n" ++
  "float4 mul(float4 v, float4x4 m) \x7b\n    return (float4)(dot(v, m.even.even), " ++
  "dot(v, m.odd.even), dot(v, m.even.odd), dot(v, m.odd.odd));    \n\x7d\n\n"

/-- The process state right after module load: seeded source buffer, no
dispatchers, no compiles, empty queue log. -/
def initState : ProcState := ProcState.mk preludeCode [] 0 []

/-- A module-lifetime event: a `kernel_main` declaration (a failing
declaration leaves the state unchanged as the exception propagates), or a
dispatch through dispatcher `i` indexed by a thread shape. -/
inductive Event where
  | declKernel (f : PyFunc)
  | invokeK (i : ℕ) (t : ThreadShape)

/-- One event against the process state. -/
def step (s : ProcState) : Event → ProcState
  | Event.declKernel f =>
    match kernelMain f s with
    | Except.ok s2 => s2
    | Except.error _ => s
  | Event.invokeK i t => invoke s i t

/-- Run a list of events from the freshly loaded module. -/
def runEvents (evs : List Event) : ProcState := evs.foldl step initState

/-- Raw `cl.Buffer` device memory: its bytes (`b.size` is their count; the
buffers the module creates have offset 0). -/
structure CLBufferMem where
  bytes : List ℕ
deriving DecidableEq, Repr

/-- Byte lookup with numpy-style 0 default out of range. -/
def byteGet (l : List ℕ) (i : ℕ) : ℕ := (l[i]?).getD 0

/-- `cl.enqueue_fill_buffer(queue, b, pattern, offset, size)`: the `size`
bytes starting at `offset` are overwritten with the pattern's bytes repeated;
all other bytes keep their values. -/
def enqueueFillBuffer (b : CLBufferMem) (pattern : List ℕ) (offset size : ℕ) : CLBufferMem :=
  CLBufferMem.mk ((List.range b.bytes.length).map fun i =>
    if offset ≤ i ∧ i < offset + size then byteGet pattern ((i - offset) % pattern.length)
    else byteGet b.bytes i)

/-- The raw bytes of the fill value `np.float32(0)` that `clear` defaults to
(`value.nbytes = 4`). -/
def float32ZeroBytes : List ℕ := [0, 0, 0, 0]

/-- Embedding of `clear(b, value)` on a raw `cl.Buffer`: the call is
`cl.enqueue_fill_buffer(__queue__, b, value, 0, value.nbytes)` — offset 0 and
fill size equal to the VALUE's byte count, no matter how large the buffer is. -/
def clearBuffer (b : CLBufferMem) (valueBytes : List ℕ) : CLBufferMem :=
  enqueueFillBuffer b valueBytes 0 valueBytes.length

/-- The host view produced by mapping a raw `cl.Buffer` inside `mapped`:
`enqueue_map_buffer(..., b.offset, (b.size,), np.uint8)`, a byte view over
the buffer's full extent. -/
def mappedBufferBytes (b : CLBufferMem) : List ℕ := b.bytes

/-- OpenCL `mem_object_type` numeric codes (`cl.mem_object_type.*`), used by
`mapped` through the comparisons `b.type < IMAGE3D` / `< IMAGE2D`. -/
def memObjectTypeImage2d : ℕ := 0x10F1

/-- Numeric code of `cl.mem_object_type.IMAGE3D`. -/
def memObjectTypeImage3d : ℕ := 0x10F2

/-- The channel orders of the five supported image formats. -/
inductive ChannelOrder where
  | bgra
  | rgba
  | rgb
  | rg
  | r
deriving DecidableEq, Repr

/-- The channel data types appearing in `__CHANNEL_TYPE_TO_DTYPE__`. -/
inductive ChannelType where
  | floatCT
  | signedInt32
  | signedInt8
  | unsignedInt32
  | unsignedInt8
  | unormInt8
deriving DecidableEq, Repr

/-- `__CHANNEL_ORDER_TO_COMPONENTS__`. -/
def channelOrderToComponents : ChannelOrder → ℕ
  | ChannelOrder.bgra => 4
  | ChannelOrder.rgba => 4
  | ChannelOrder.rgb => 3
  | ChannelOrder.rg => 2
  | ChannelOrder.r => 1

/-- `__CHANNEL_TYPE_TO_DTYPE__`. -/
def channelTypeToDtype : ChannelType → NpDtype
  | ChannelType.floatCT => NpDtype.float32
  | ChannelType.signedInt32 => NpDtype.int32
  | ChannelType.signedInt8 => NpDtype.int8
  | ChannelType.unsignedInt32 => NpDtype.uint32
  | ChannelType.unsignedInt8 => NpDtype.uint8
  | ChannelType.unormInt8 => NpDtype.int8

/-- A `cl.Image` as `mapped` inspects it: dimensions, format, and its
`mem_object_type` code. -/
structure ImageDesc where
  width : ℕ
  height : ℕ
  depth : ℕ
  channelOrder : ChannelOrder
  channelType : ChannelType
  memType : ℕ
deriving DecidableEq, Repr

/-- What `mapped(b)` may receive: a `pyopencl.array.Array` slice (with its own
shape, dtype and offset), a raw `cl.Buffer`, or a `cl.Image`. -/
inductive MapTarget where
  | rawBuffer (size offset : ℕ)
  | image (d : ImageDesc)
  | claArray (shape : List ℕ) (dtype : NpDtype) (offset : ℕ)
deriving DecidableEq, Repr

/-- The host-visible view descriptor `enqueue_map_*` produces: its shape and
element dtype. -/
structure MapView where
  shape : List ℕ
  dtype : NpDtype
deriving DecidableEq, Repr

/-- The view computed by `_ctx.__enter__`: for an image, shape
`(depth, height, width, cmps)` trimmed from the front when the image type code
is below `IMAGE3D` / `IMAGE2D` and from the back when the format has a single
channel; for a raw buffer, a `(b.size,)` byte view; for a typed array slice,
its own declared shape and dtype. -/
def mapViewOf : MapTarget → MapView
  | MapTarget.rawBuffer size _ => MapView.mk [size] NpDtype.uint8
  | MapTarget.image d =>
    let cmps := channelOrderToComponents d.channelOrder
    let shape0 := [d.depth, d.height, d.width, cmps]
    let shape1 := if d.memType < memObjectTypeImage3d then shape0.drop 1 else shape0
    let shape2 := if d.memType < memObjectTypeImage2d then shape1.drop 1 else shape1
    let shape3 := if cmps = 1 then shape2.dropLast else shape2
    MapView.mk shape3 (channelTypeToDtype d.channelType)
  | MapTarget.claArray shape dtype _ => MapView.mk shape dtype

/-- Whether the target's device memory is currently host-mapped. -/
structure MemState where
  hostMapped : Bool
deriving DecidableEq, Repr

/-- `_ctx.__enter__`: performs the `enqueue_map_*` call for the target kind,
records the mapping, and hands the mapped view to the `with` body. -/
def mappedEnter (t : MapTarget) (s : MemState) : MapView × MemState :=
  (mapViewOf t, { s with hostMapped := true })

/-- `_ctx.__exit__(exc_type, exc_val, exc_tb)`: releases the mapping
(`self.mapped[0].base.release()`) without inspecting the exception info, and
returns `None` (falsy), so an exception is never suppressed. -/
def ctxExit (s : MemState) (_excInfo : Option Err) : MemState × Bool :=
  (( { s with hostMapped := false } : MemState), false)

/-- Outcome of running a Python block: a value, or a raised exception. -/
inductive PyResult (β : Type) where
  | ok (b : β)
  | exc (e : Err)
deriving DecidableEq, Repr

/-- Semantics of `with ctx as v: body` for an enter/exit context-manager
pair: enter runs first; the exit handler runs on BOTH the normal path (with
`None` exception info) and the exceptional path (with the exception); a falsy
exit result re-raises the body's exception, a truthy one suppresses it. -/
def withStmt {β : Type} (enter : MemState → MapView × MemState)
    (exitFn : MemState → Option Err → MemState × Bool)
    (body : MapView → MemState → PyResult β × MemState) (s : MemState) :
    PyResult (Option β) × MemState :=
  let (v, s1) := enter s
  match body v s1 with
  | (PyResult.ok b, s2) =>
    let (s3, _) := exitFn s2 Option.none
    (PyResult.ok (some b), s3)
  | (PyResult.exc e, s2) =>
    let (s3, suppress) := exitFn s2 (some e)
    (if suppress then PyResult.ok Option.none else PyResult.exc e, s3)

/-- A pointer-form annotation (a Python list) whose element is NOT a string
annotation: the shapes on which the auxiliary-function pointer check (or the
fallback `dtype_to_ctype`) raises, as opposed to the list-wrapped string that
slips through. -/
def isRejectedPtrAnn : Ann → Bool
  | Ann.pylist [Ann.pystr _] => false
  | Ann.pylist _ => true
  | _ => false

/-- Fixture: a kernel entry point named `A` with no parameters and no return
annotation. -/
def kfA : PyFunc := PyFunc.mk "A" [] Option.none "int a = thread_id;"

/-- Fixture: a second kernel entry point named `B`. -/
def kfB : PyFunc := PyFunc.mk "B" [] Option.none "int b = thread_id;"

/-- Fixture trace: declare two kernels, then invoke each dispatcher once. -/
def traceTwoKernels : List Event :=
  [Event.declKernel kfA, Event.declKernel kfB,
   Event.invokeK 0 (ThreadShape.single 1), Event.invokeK 1 (ThreadShape.single 1)]

/-- Fixture: a dispatcher for kernel `A` whose program cache is empty. -/
def dispA : DispState := DispState.mk "A" Option.none

/-- Fixture: a process state with one not-yet-invoked dispatcher. -/
def sEx : ProcState := ProcState.mk "K" [dispA] 0 []

/-- Fixture: an auxiliary function whose parameter is annotated with a
one-element list wrapping a STRING annotation (a list-wrapped object type). -/
def fStrPtr : PyFunc :=
  PyFunc.mk "sample_tex" [("im", Ann.pylist [Ann.pystr "read_only image2d_t"])]
    (some (Ann.pydtype NpDtype.float32)) "return;"

/-- Fixture: an auxiliary function whose parameter is annotated with a
one-element list wrapping a registered dtype — `[int]`, a real pointer. -/
def fDtypePtr : PyFunc :=
  PyFunc.mk "upd" [("p", Ann.pylist [Ann.pydtype NpDtype.int32])]
    (some Ann.pynone) "p[0] = 1;"

/-- Fixture: a well-formed auxiliary function (no pointers). -/
def fAux : PyFunc :=
  PyFunc.mk "sqr" [("a", Ann.pydtype NpDtype.float32)]
    (some (Ann.pydtype NpDtype.float32)) "return a*a;"

/-- Fixture: a kernel entry point declared with an explicit `None` return
annotation (`-> None`), rather than no annotation. -/
def fVoidRet : PyFunc := PyFunc.mk "main_v" [] (some Ann.pynone) "int i = thread_id;"

/-- Helper: `_get_annotation_as_cltype` never raises the host-call error; its
failures are all assert/`dtype_to_ctype` failures, i.e. `InvalidInput`. -/
theorem getAnnotationAsCltype_no_unsupported (a : Ann) (b : Bool) :
    getAnnotationAsCltype a b ≠ Except.error Err.unsupportedOperation := by
  cases a with
  | pynone => simp [getAnnotationAsCltype]
  | pystr s => simp [getAnnotationAsCltype]
  | pydtype d => simp [getAnnotationAsCltype]
  | pylist l =>
    cases l with
    | nil => simp [getAnnotationAsCltype]
    | cons hd tl =>
      cases tl with
      | cons a2 t2 => simp [getAnnotationAsCltype]
      | nil =>
        cases hd with
        | pystr s => simp [getAnnotationAsCltype]
        | pynone => cases b <;> simp [getAnnotationAsCltype]
        | pydtype d => cases b <;> simp [getAnnotationAsCltype]
        | pylist l2 => cases b <;> simp [getAnnotationAsCltype]

/-- Helper: return-annotation rendering never raises the host-call error. -/
theorem getReturnAnnotationAsCltype_no_unsupported (r : Option Ann) (b : Bool) :
    getReturnAnnotationAsCltype r b ≠ Except.error Err.unsupportedOperation := by
  cases r with
  | none => simp [getReturnAnnotationAsCltype]
  | some a => exact getAnnotationAsCltype_no_unsupported a b

/-- Helper: parameter rendering never raises the host-call error. -/
theorem renderParams_no_unsupported (ps : List (String × Ann)) (b : Bool) :
    renderParams ps b ≠ Except.error Err.unsupportedOperation := by
  induction ps with
  | nil => simp [renderParams]
  | cons p ps ih =>
    simp only [renderParams]
    cases hg : getAnnotationAsCltype p.2 b with
    | error e =>
      cases e with
      | invalidInput => simp
      | unsupportedOperation => exact absurd hg (getAnnotationAsCltype_no_unsupported p.2 b)
    | ok c =>
      cases hr : renderParams ps b with
      | error e2 =>
        cases e2 with
        | invalidInput => simp
        | unsupportedOperation => exact absurd hr ih
      | ok rest => simp

/-- Helper: on a non-string pointer annotation the auxiliary-function
rendering fails with `InvalidInput` (either the one-element assert, the
no-pointer assert, or `dtype_to_ctype`). -/
theorem getAnnotationAsCltype_rejects_ptr (a : Ann) (h : isRejectedPtrAnn a = true) :
    getAnnotationAsCltype a true = Except.error Err.invalidInput := by
  cases a with
  | pynone => simp [isRejectedPtrAnn] at h
  | pystr s => simp [isRejectedPtrAnn] at h
  | pydtype d => simp [isRejectedPtrAnn] at h
  | pylist l =>
    cases l with
    | nil => simp [getAnnotationAsCltype]
    | cons hd tl =>
      cases tl with
      | cons a2 t2 => simp [getAnnotationAsCltype]
      | nil =>
        cases hd with
        | pystr s => simp [isRejectedPtrAnn] at h
        | pynone => simp [getAnnotationAsCltype]
        | pydtype d => simp [getAnnotationAsCltype]
        | pylist l2 => simp [getAnnotationAsCltype]

/-- Helper: a parameter list containing a non-string pointer annotation fails
to render (with `InvalidInput`) under the no-pointer policy. -/
theorem renderParams_rejects (ps : List (String × Ann)) (pname : String) (a : Ann)
    (hmem : (pname, a) ∈ ps) (h : isRejectedPtrAnn a = true) :
    renderParams ps true = Except.error Err.invalidInput := by
  induction ps with
  | nil => simp at hmem
  | cons p ps ih =>
    rcases List.mem_cons.mp hmem with heq | htl
    · simp only [renderParams, ← heq]
      rw [getAnnotationAsCltype_rejects_ptr a h]
    · simp only [renderParams]
      cases hg : getAnnotationAsCltype p.2 true with
      | error e =>
        cases e with
        | invalidInput => rfl
        | unsupportedOperation => exact absurd hg (getAnnotationAsCltype_no_unsupported p.2 true)
      | ok c => rw [ih htl]

/-- C5: for every registered float vector/matrix type, `to_array` applied to
the `make_*` constructor of explicit components recovers exactly the original
components with the expected trailing axis (2, 3, 4, or 4x4); in particular
`make_float3` pads a fourth storage lane with zero and `to_array` truncates
the trailing axis back to 3 components. -/
theorem make_to_array_roundtrip :
    (∀ x y : ℚ, toArray (makeFloat2 x y) = PlainArray.vec [x, y]) ∧
    (∀ x y z : ℚ, makeFloat3 x y z = PyVal.vf3 x y z 0 ∧
      toArray (makeFloat3 x y z) = PlainArray.vec [x, y, z]) ∧
    (∀ x y z w : ℚ, toArray (makeFloat4 x y z w) = PlainArray.vec [x, y, z, w]) ∧
    (∀ c00 c01 c02 c03 c10 c11 c12 c13 c20 c21 c22 c23 c30 c31 c32 c33 : ℚ,
      toArray (makeFloat4x4 c00 c01 c02 c03 c10 c11 c12 c13 c20 c21 c22 c23 c30 c31 c32 c33) =
        PlainArray.mat [[c00, c01, c02, c03], [c10, c11, c12, c13],
          [c20, c21, c22, c23], [c30, c31, c32, c33]]) := by
  refine ⟨fun _ _ => rfl, fun _ _ _ => ⟨rfl, rfl⟩, fun _ _ _ _ => rfl, ?_⟩
  intro c00 c01 c02 c03 c10 c11 c12 c13 c20 c21 c22 c23 c30 c31 c32 c33
  rfl

/-- C6: `matmul` rejects with `InvalidInput` a first argument that is neither
`float4` nor `float4x4`, and a second argument that is not `float4x4`; on
valid dtypes it computes the standard row-vector-by-matrix (component `j` is
`Σ i, a i * b i j`) or matrix-by-matrix product; in particular multiplying the
point `(0,0,0,1)` by `translate(5,-3,2)` yields `(5,-3,2,1)`. -/
theorem matmul_assertions_and_product :
    (∀ a b : PyVal, ¬(dtypeOf a = NpDtype.vfloat4 ∨ dtypeOf a = NpDtype.mfloat4x4) →
      matmul a b = Except.error Err.invalidInput) ∧
    (∀ a b : PyVal, dtypeOf b ≠ NpDtype.mfloat4x4 →
      matmul a b = Except.error Err.invalidInput) ∧
    (∀ (x y z w : ℚ) (m : Mat4Q),
      matmul (PyVal.vf4 x y z w) (PyVal.m44 m) =
        Except.ok (PyVal.vf4
          (x * m.r0.x + y * m.r1.x + z * m.r2.x + w * m.r3.x)
          (x * m.r0.y + y * m.r1.y + z * m.r2.y + w * m.r3.y)
          (x * m.r0.z + y * m.r1.z + z * m.r2.z + w * m.r3.z)
          (x * m.r0.w + y * m.r1.w + z * m.r2.w + w * m.r3.w))) ∧
    (∀ ma mb : Mat4Q,
      matmul (PyVal.m44 ma) (PyVal.m44 mb) = Except.ok (PyVal.m44 (matTimesMat ma mb))) ∧
    matmul (makeFloat4 0 0 0 1) (translateM 5 (-3) 2) = Except.ok (makeFloat4 5 (-3) 2 1) := by
  refine ⟨?_, ?_, ?_, ?_,
    by norm_num [matmul, makeFloat4, translateM, makeFloat4x4, dtypeOf, rowTimesMat]⟩
  · intro a b h
    simp [matmul, h]
  · intro a b h
    by_cases h1 : dtypeOf a = NpDtype.vfloat4 ∨ dtypeOf a = NpDtype.mfloat4x4
    · simp [matmul, h1, h]
    · simp [matmul, h1]
  · intro x y z w m
    simp [matmul, dtypeOf, rowTimesMat, makeFloat4]
  · intro ma mb
    simp [matmul, dtypeOf]

/-- C7: a dispatch indexed by a multi-dimensional shape behaves exactly like
one indexed by the single integer equal to the shape's product, and every
dispatch enqueues its kernel with global size `resolveNumThreads t` — for a
shape, the product of its components. -/
theorem dispatch_thread_count :
    (∀ (s : ProcState) (i : ℕ) (dims : List ℤ) (n : ℤ), dims.prod = n →
      invoke s i (ThreadShape.multi dims) = invoke s i (ThreadShape.single n)) ∧
    (∀ dims : List ℤ, resolveNumThreads (ThreadShape.multi dims) = dims.prod) ∧
    (∀ (s : ProcState) (i : ℕ) (t : ThreadShape) (d : DispState),
      s.dispatchers[i]? = some d →
      (invoke s i t).enqueues = s.enqueues ++ [(d.kname, resolveNumThreads t)]) := by
  refine ⟨?_, fun _ => rfl, ?_⟩
  · intro s i dims n h
    unfold invoke
    rw [show resolveNumThreads (ThreadShape.multi dims) =
      resolveNumThreads (ThreadShape.single n) from by simp [resolveNumThreads, h]]
  · intro s i t d h
    unfold invoke
    rw [h]
    cases hd : d.progCache <;> simp [hd]

/-- Witness for `dispatch_thread_count` at shape (3, 4) against integer 12. -/
theorem dispatch_thread_count_witness :
    (([3, 4] : List ℤ).prod = 12) ∧
    invoke sEx 0 (ThreadShape.multi [3, 4]) = invoke sEx 0 (ThreadShape.single 12) ∧
    (sEx.dispatchers[0]? = some dispA) ∧
    (invoke sEx 0 (ThreadShape.multi [3, 4])).enqueues =
      sEx.enqueues ++ [("A", resolveNumThreads (ThreadShape.multi [3, 4]))] :=
  ⟨by decide, dispatch_thread_count.1 sEx 0 [3, 4] 12 (by decide), by decide,
    dispatch_thread_count.2.2 sEx 0 (ThreadShape.multi [3, 4]) dispA (by decide)⟩

/-- Witness for `matmul_assertions_and_product`: a float2 first argument and a
non-matrix second argument are both rejected with InvalidInput. -/
theorem matmul_assertions_and_product_witness :
    (¬(dtypeOf (PyVal.vf2 1 2) = NpDtype.vfloat4 ∨
        dtypeOf (PyVal.vf2 1 2) = NpDtype.mfloat4x4)) ∧
    matmul (PyVal.vf2 1 2) (translateM 5 (-3) 2) = Except.error Err.invalidInput ∧
    (dtypeOf (PyVal.vf4 1 2 3 4) ≠ NpDtype.mfloat4x4) ∧
    matmul (makeFloat4 0 0 0 1) (PyVal.vf4 1 2 3 4) = Except.error Err.invalidInput :=
  ⟨by decide, matmul_assertions_and_product.1 (PyVal.vf2 1 2) (translateM 5 (-3) 2) (by decide),
    by decide,
    matmul_assertions_and_product.2.1 (makeFloat4 0 0 0 1) (PyVal.vf4 1 2 3 4) (by decide)⟩

/-- C10: `kernel_main` rejects ANY return annotation — including the explicit
`None` that the shared annotation mapping would render as `void` — accepting
only a function with no return annotation at all. -/
theorem kernel_main_rejects_annotated_return :
    (∀ (f : PyFunc) (s : ProcState) (a : Ann), f.retAnn = some a →
      kernelMain f s = Except.error Err.invalidInput) ∧
    (∀ b : Bool, getAnnotationAsCltype Ann.pynone b = Except.ok "void") := by
  constructor
  · intro f s a h
    unfold kernelMain
    rw [h]
  · intro b
    rfl

/-- Witness for `kernel_main_rejects_annotated_return` at a kernel declared
`-> None`. -/
theorem kernel_main_rejects_annotated_return_witness :
    (fVoidRet.retAnn = some Ann.pynone) ∧
    kernelMain fVoidRet initState = Except.error Err.invalidInput ∧
    getAnnotationAsCltype Ann.pynone true = Except.ok "void" :=
  ⟨rfl, kernel_main_rejects_annotated_return.1 fVoidRet initState Ann.pynone rfl,
    kernel_main_rejects_annotated_return.2 true⟩

/-- C8: whenever `kernel_function` succeeds, the value it returns is a wrapper
that fails with the "unsupported call" error on EVERY argument list — the
declared function is only device-side text. -/
theorem aux_function_host_call_raises :
    ∀ (f : PyFunc) (code newCode : String) (w : List PyVal → Except Err PyVal)
      (args : List PyVal),
      kernelFunction f code = Except.ok (newCode, w) →
      w args = Except.error Err.unsupportedOperation := by
  intro f code newCode w args h
  unfold kernelFunction at h
  cases htext : kernelFunctionText f code with
  | error e => rw [htext] at h; exact absurd h (by simp)
  | ok c =>
    rw [htext] at h
    have hw : hostCallAux = w := congrArg Prod.snd (Except.ok.inj h)
    rw [← hw]
    rfl

/-- Witness for `aux_function_host_call_raises`: a concrete successful
auxiliary declaration whose wrapper raises on the empty argument list. -/
theorem aux_function_host_call_raises_witness :
    kernelFunction fAux "" =
      Except.ok ("\nfloat sqr(float a) \x7b\nreturn a*a;\n\x7d\n", hostCallAux) ∧
    hostCallAux [] = Except.error Err.unsupportedOperation :=
  ⟨rfl, aux_function_host_call_raises fAux ""
    "\nfloat sqr(float a) \x7b\nreturn a*a;\n\x7d\n" hostCallAux [] rfl⟩

/-- C9: a scoped mapping of any buffer, image, or typed array slice is
released on every exit path of the `with` block: whatever the body does, the
final state is unmapped, and when the body raises, the exception still
propagates (the exit handler releases and does not suppress). -/
theorem mapped_release_on_scope_exit :
    (∀ (β : Type) (t : MapTarget) (s : MemState)
      (body : MapView → MemState → PyResult β × MemState),
      (withStmt (mappedEnter t) ctxExit body s).2.hostMapped = false) ∧
    (∀ (β : Type) (t : MapTarget) (s : MemState)
      (body : MapView → MemState → PyResult β × MemState) (e : Err) (s2 : MemState),
      body (mapViewOf t) (MemState.mk true) = (PyResult.exc e, s2) →
      withStmt (mappedEnter t) ctxExit body s = (PyResult.exc e, MemState.mk false)) := by
  constructor
  · intro β t s body
    simp only [withStmt, mappedEnter]
    cases hb : body (mapViewOf t) (MemState.mk true) with
    | mk r s2 => cases r <;> rfl
  · intro β t s body e s2 hb
    simp only [withStmt, mappedEnter]
    rw [hb]
    rfl

/-- Witness for `mapped_release_on_scope_exit`: a body that raises while the
raw-buffer view is mapped still leaves the memory unmapped, and the exception
propagates. -/
theorem mapped_release_on_scope_exit_witness :
    ((fun (_ : MapView) (st : MemState) =>
        ((PyResult.exc Err.invalidInput : PyResult Unit), st))
      (mapViewOf (MapTarget.rawBuffer 8 0)) (MemState.mk true) =
        (PyResult.exc Err.invalidInput, MemState.mk true)) ∧
    withStmt (mappedEnter (MapTarget.rawBuffer 8 0)) ctxExit
      (fun (_ : MapView) (st : MemState) =>
        ((PyResult.exc Err.invalidInput : PyResult Unit), st)) (MemState.mk false) =
      (PyResult.exc Err.invalidInput, MemState.mk false) ∧
    (withStmt (mappedEnter (MapTarget.rawBuffer 8 0)) ctxExit
      (fun (_ : MapView) (st : MemState) =>
        ((PyResult.exc Err.invalidInput : PyResult Unit), st))
      (MemState.mk false)).2.hostMapped = false :=
  ⟨rfl,
    mapped_release_on_scope_exit.2 Unit (MapTarget.rawBuffer 8 0) (MemState.mk false)
      (fun _ st => (PyResult.exc Err.invalidInput, st)) Err.invalidInput
      (MemState.mk true) rfl,
    mapped_release_on_scope_exit.1 Unit (MapTarget.rawBuffer 8 0) (MemState.mk false)
      (fun _ st => (PyResult.exc Err.invalidInput, st))⟩

/-- C1 (code bug): for a 2-component (and likewise 4-component) vector,
`normalize` divides by the length TWICE — `v = to_array(v) / l` followed by
`return (v / l).view(v_dtype)` — so it returns `v / dot(v, v)` instead of
`v / sqrt(dot(v, v))`. At `v = float2(3, 4)` (any exact square root sends 25
to 5) the result is `(3/25, 4/25)`, whose self-dot is `1/25`, not 1. -/
theorem normalize_divides_twice (s : ℚ → ℚ) (hs : s 25 = 5) :
    (∀ (x y : ℚ) (t : ℚ → ℚ),
      normalizeWith t (PyVal.vf2 x y) =
        Except.ok (PyVal.vf2 (x / t (x * x + y * y) / t (x * x + y * y))
          (y / t (x * x + y * y) / t (x * x + y * y)))) ∧
    normalizeWith s (PyVal.vf2 3 4) = Except.ok (PyVal.vf2 (3 / 25) (4 / 25)) ∧
    dot (PyVal.vf2 (3 / 25) (4 / 25)) (PyVal.vf2 (3 / 25) (4 / 25)) =
      Except.ok (1 / 25) ∧
    ((1 : ℚ) / 25 ≠ 1) := by
  have hgen : ∀ (x y : ℚ) (t : ℚ → ℚ),
      normalizeWith t (PyVal.vf2 x y) =
        Except.ok (PyVal.vf2 (x / t (x * x + y * y) / t (x * x + y * y))
          (y / t (x * x + y * y) / t (x * x + y * y))) := by
    intro x y t
    simp [normalizeWith, dot, dtypeOf]
  refine ⟨hgen, ?_, ?_, by norm_num⟩
  · rw [hgen 3 4 s]
    norm_num [hs]
  · simp [dot, dtypeOf]
    norm_num

/-- Witness for `normalize_divides_twice` with the exact square root of 25. -/
theorem normalize_divides_twice_witness :
    ((fun _ : ℚ => (5 : ℚ)) 25 = 5) ∧
    normalizeWith (fun _ : ℚ => (5 : ℚ)) (PyVal.vf2 3 4) =
      Except.ok (PyVal.vf2 (3 / 25) (4 / 25)) :=
  ⟨rfl, (normalize_divides_twice (fun _ : ℚ => (5 : ℚ)) rfl).2.1⟩

/-- C2 (code bug): `clear(b, value)` on a raw buffer fills only
`value.nbytes` bytes from offset 0 — every byte at an index at or beyond the
value's byte count keeps its old contents. Concretely, clearing an 8-byte
buffer of ones with the default `np.float32(0)` leaves the mapped view
`[0, 0, 0, 0, 1, 1, 1, 1]`: byte 4 still reads 1, not 0. -/
theorem clear_buffer_fills_only_value_bytes :
    (∀ (b : CLBufferMem) (pattern : List ℕ) (i : ℕ), pattern.length ≤ i →
      byteGet (clearBuffer b pattern).bytes i = byteGet b.bytes i) ∧
    mappedBufferBytes (clearBuffer (CLBufferMem.mk (List.replicate 8 1)) float32ZeroBytes) =
      [0, 0, 0, 0, 1, 1, 1, 1] ∧
    byteGet (mappedBufferBytes
      (clearBuffer (CLBufferMem.mk (List.replicate 8 1)) float32ZeroBytes)) 4 = 1 ∧
    (1 : ℕ) ≠ 0 := by
  refine ⟨?_, by decide, by decide, by decide⟩
  intro b pattern i h
  show ((List.range b.bytes.length).map _)[i]?.getD 0 = byteGet b.bytes i
  rcases Nat.lt_or_ge i b.bytes.length with hi | hi
  · rw [List.getElem?_map, List.getElem?_range hi]
    have hcond : ¬(0 ≤ i ∧ i < 0 + pattern.length) := by omega
    simp only [Option.map_some', hcond, if_false, Option.getD_some]
  · rw [List.getElem?_eq_none (by simpa using hi)]
    unfold byteGet
    rw [List.getElem?_eq_none hi]

/-- Witness for `clear_buffer_fills_only_value_bytes`: byte 6 of the 8-byte
buffer is untouched by the 4-byte default fill. -/
theorem clear_buffer_fills_only_value_bytes_witness :
    (float32ZeroBytes.length ≤ 6) ∧
    byteGet (clearBuffer (CLBufferMem.mk (List.replicate 8 1)) float32ZeroBytes).bytes 6 =
      byteGet (List.replicate 8 1) 6 :=
  ⟨by decide, clear_buffer_fills_only_value_bytes.1
    (CLBufferMem.mk (List.replicate 8 1)) float32ZeroBytes 6 (by decide)⟩

/-- C3 counterexample: after declaring two kernels and invoking each
dispatcher once, the process has built TWO programs — the second dispatcher's
first invocation compiled again instead of reusing the first dispatcher's
cached Program, contradicting "at most once per process". -/
theorem program_compiled_twice :
    (runEvents traceTwoKernels).compiles = 2 ∧
    ¬((runEvents traceTwoKernels).compiles ≤ 1) := by
  constructor
  · rfl
  · decide

/-- C3 amended: the Program cache is per dispatcher. An invocation through a
dispatcher with an empty cache compiles the entire current source buffer
exactly once and stores it in THAT dispatcher's cache; an invocation through
a dispatcher whose cache is filled performs no compilation and leaves all
dispatcher state unchanged. -/
theorem program_cached_per_dispatcher :
    ∀ (s : ProcState) (i : ℕ) (t : ThreadShape) (d : DispState),
      s.dispatchers[i]? = some d →
      (d.progCache = Option.none →
        (invoke s i t).compiles = s.compiles + 1 ∧
        (invoke s i t).dispatchers = setCache s.dispatchers i (Program.mk s.code)) ∧
      (∀ p : Program, d.progCache = some p →
        (invoke s i t).compiles = s.compiles ∧
        (invoke s i t).dispatchers = s.dispatchers) := by
  intro s i t d h
  constructor
  · intro hc
    simp only [invoke, h, hc]
    exact ⟨trivial, trivial⟩
  · intro p hp
    simp only [invoke, h, hp]
    exact ⟨trivial, trivial⟩

/-- Witness for `program_cached_per_dispatcher` on a one-dispatcher state:
the first invocation compiles (count 0 becomes 1) and fills the cache. -/
theorem program_cached_per_dispatcher_witness :
    (sEx.dispatchers[0]? = some dispA) ∧ (dispA.progCache = Option.none) ∧
    (invoke sEx 0 (ThreadShape.single 4)).compiles = sEx.compiles + 1 ∧
    (invoke sEx 0 (ThreadShape.single 4)).dispatchers =
      setCache sEx.dispatchers 0 (Program.mk sEx.code) :=
  ⟨by decide, rfl,
    ((program_cached_per_dispatcher sEx 0 (ThreadShape.single 4) dispA (by decide)).1 rfl).1,
    ((program_cached_per_dispatcher sEx 0 (ThreadShape.single 4) dispA (by decide)).1 rfl).2⟩

/-- C4 counterexample: an auxiliary function whose parameter is annotated
with a one-element list wrapping a STRING annotation is NOT rejected — the
string is returned verbatim before the no-pointer assert runs, so the
declaration succeeds (emitting the bare string as the parameter type). -/
theorem string_pointer_param_accepted :
    kernelFunctionText fStrPtr "" =
      Except.ok "\nfloat sample_tex(read_only image2d_t im) \x7b\nreturn;\n\x7d\n" ∧
    kernelFunctionText fStrPtr "" ≠ Except.error Err.invalidInput := by
  constructor
  · rfl
  · decide

/-- C4 amended: auxiliary-function declaration fails with InvalidInput for
every pointer-form (list) parameter annotation whose element is NOT a string
annotation; but a one-element list wrapping a string is accepted, the string
being used verbatim as the type spelling with no pointer marker. -/
theorem aux_pointer_param_policy :
    (∀ (f : PyFunc) (code pname : String) (a : Ann),
      (pname, a) ∈ f.params → isRejectedPtrAnn a = true →
      kernelFunction f code = Except.error Err.invalidInput) ∧
    (∀ s : String, getAnnotationAsCltype (Ann.pylist [Ann.pystr s]) true = Except.ok s) := by
  constructor
  · intro f code pname a hmem ha
    unfold kernelFunction kernelFunctionText
    cases hr : getReturnAnnotationAsCltype f.retAnn true with
    | error e =>
      cases e with
      | invalidInput => rfl
      | unsupportedOperation =>
        exact absurd hr (getReturnAnnotationAsCltype_no_unsupported f.retAnn true)
    | ok ret => rw [renderParams_rejects f.params pname a hmem ha]
  · intro s
    rfl

/-- Witness for `aux_pointer_param_policy`: the `[int]` parameter of
`fDtypePtr` is rejected, while a list-wrapped image-handle string renders to
itself. -/
theorem aux_pointer_param_policy_witness :
    (("p", Ann.pylist [Ann.pydtype NpDtype.int32]) ∈ fDtypePtr.params) ∧
    (isRejectedPtrAnn (Ann.pylist [Ann.pydtype NpDtype.int32]) = true) ∧
    kernelFunction fDtypePtr "" = Except.error Err.invalidInput ∧
    getAnnotationAsCltype (Ann.pylist [Ann.pystr "read_only image2d_t"]) true =
      Except.ok "read_only image2d_t" :=
  ⟨by simp [fDtypePtr], rfl,
    aux_pointer_param_policy.1 fDtypePtr "" "p" (Ann.pylist [Ann.pydtype NpDtype.int32])
      (by simp [fDtypePtr]) rfl,
    aux_pointer_param_policy.2 "read_only image2d_t"⟩
